import Mathlib

/-!
# Verification of the KarianaUMCP MCP bridge (`kariana-mcp-bridge.js`)

A shallow embedding of the bridge's core logic: JSON values as an inductive
type, JavaScript truthiness, `JSON.stringify(v, null, 2)` pretty-printing,
the response normalizer of the `CallToolRequestSchema` handler, the schema
translator of the `ListToolsRequestSchema` handler, the two-transport
dispatcher `sendMessage`, and the event-level behaviour of `sendToSocket`.

Conventions: JavaScript objects are association lists in insertion order;
machine "throws" are `Except.error`; a settled/pending promise is an
`Option` field that, once `some`, can never change (JS promises settle once).
-/

namespace Kariana

/-- A JSON value, as produced by `JSON.parse` and consumed by the bridge.
Objects keep their fields in insertion order. -/
inductive JVal where
  | jnull
  | jbool (b : Bool)
  | jnum (n : Int)
  | jstr (s : String)
  | jarr (xs : List JVal)
  | jobj (fields : List (String × JVal))

-- No deriving handler applies to the two nested `List` positions, so equality
-- is a hand-written mutual recursion with its correctness proved below.
mutual

def JVal.beq : JVal → JVal → Bool
  | .jnull, .jnull => true
  | .jbool a, .jbool b => a == b
  | .jnum a, .jnum b => a == b
  | .jstr a, .jstr b => a == b
  | .jarr a, .jarr b => JVal.beqList a b
  | .jobj a, .jobj b => JVal.beqFields a b
  | _, _ => false

def JVal.beqList : List JVal → List JVal → Bool
  | [], [] => true
  | x :: xs, y :: ys => JVal.beq x y && JVal.beqList xs ys
  | _, _ => false

def JVal.beqFields : List (String × JVal) → List (String × JVal) → Bool
  | [], [] => true
  | (k, v) :: xs, (l, w) :: ys => k == l && JVal.beq v w && JVal.beqFields xs ys
  | _, _ => false

end

mutual

theorem JVal.beq_iff_eq : ∀ a b : JVal, JVal.beq a b = true ↔ a = b
  | .jnull, .jnull => by simp [JVal.beq]
  | .jbool _, .jbool _ => by simp [JVal.beq]
  | .jnum _, .jnum _ => by simp [JVal.beq]
  | .jstr _, .jstr _ => by simp [JVal.beq]
  | .jarr x, .jarr y => by simp [JVal.beq, JVal.beqList_iff_eq x y]
  | .jobj x, .jobj y => by simp [JVal.beq, JVal.beqFields_iff_eq x y]
  | .jnull, .jbool _ | .jnull, .jnum _ | .jnull, .jstr _ | .jnull, .jarr _ | .jnull, .jobj _
  | .jbool _, .jnull | .jbool _, .jnum _ | .jbool _, .jstr _ | .jbool _, .jarr _
  | .jbool _, .jobj _
  | .jnum _, .jnull | .jnum _, .jbool _ | .jnum _, .jstr _ | .jnum _, .jarr _ | .jnum _, .jobj _
  | .jstr _, .jnull | .jstr _, .jbool _ | .jstr _, .jnum _ | .jstr _, .jarr _ | .jstr _, .jobj _
  | .jarr _, .jnull | .jarr _, .jbool _ | .jarr _, .jnum _ | .jarr _, .jstr _ | .jarr _, .jobj _
  | .jobj _, .jnull | .jobj _, .jbool _ | .jobj _, .jnum _ | .jobj _, .jstr _
  | .jobj _, .jarr _ => by simp [JVal.beq]

theorem JVal.beqList_iff_eq : ∀ xs ys : List JVal, JVal.beqList xs ys = true ↔ xs = ys
  | [], [] => by simp [JVal.beqList]
  | x :: xs, y :: ys => by
      simp [JVal.beqList, JVal.beq_iff_eq x y, JVal.beqList_iff_eq xs ys]
  | [], _ :: _ => by simp [JVal.beqList]
  | _ :: _, [] => by simp [JVal.beqList]

theorem JVal.beqFields_iff_eq :
    ∀ xs ys : List (String × JVal), JVal.beqFields xs ys = true ↔ xs = ys
  | [], [] => by simp [JVal.beqFields]
  | (k, v) :: xs, (l, w) :: ys => by
      simp [JVal.beqFields, JVal.beq_iff_eq v w, JVal.beqFields_iff_eq xs ys, and_assoc]
  | [], _ :: _ => by simp [JVal.beqFields]
  | _ :: _, [] => by simp [JVal.beqFields]

end

instance : DecidableEq JVal := fun a b =>
  decidable_of_iff (JVal.beq a b = true) (JVal.beq_iff_eq a b)

/-- Field lookup on a JS object: `none` is JavaScript `undefined`. -/
def jget (fields : List (String × JVal)) (k : String) : Option JVal :=
  (fields.find? (fun kv => kv.1 = k)).map (fun kv => kv.2)

/-- JavaScript truthiness of a possibly-undefined value: `undefined`, `null`,
`false`, `0` and `""` are falsy; everything else is truthy. -/
def truthy : Option JVal → Bool
  | none => false
  | some .jnull => false
  | some (.jbool b) => b
  | some (.jnum n) => n != 0
  | some (.jstr s) => s != ""
  | some (.jarr _) => true
  | some (.jobj _) => true

mutual

/-- JavaScript `String(v)` / template-literal conversion of a value:
`null` → `"null"`, booleans and numbers print themselves, arrays join their
elements with commas (with `null` rendered empty, as `Array.prototype.toString`
does), objects are `"[object Object]"`. -/
def jsToString : JVal → String
  | .jnull => "null"
  | .jbool true => "true"
  | .jbool false => "false"
  | .jnum n => toString n
  | .jstr s => s
  | .jarr xs => jsArrToString xs
  | .jobj _ => "[object Object]"

/-- `Array.prototype.toString`: elements joined by `","`, `null` elements
rendered as the empty string. -/
def jsArrToString : List JVal → String
  | [] => ""
  | [.jnull] => ""
  | [.jbool b] => jsToString (.jbool b)
  | [.jnum n] => jsToString (.jnum n)
  | [.jstr s] => jsToString (.jstr s)
  | [.jarr ys] => jsToString (.jarr ys)
  | [.jobj fs] => jsToString (.jobj fs)
  | .jnull :: x :: xs => "," ++ jsArrToString (x :: xs)
  | y :: x :: xs => jsToString y ++ "," ++ jsArrToString (x :: xs)

end

/-- Template-literal conversion of a possibly-undefined value:
`undefined` renders as `"undefined"`. -/
def jsToStringU : Option JVal → String
  | none => "undefined"
  | some v => jsToString v

/-- One hexadecimal digit, lower case. -/
def hexDigit (n : Nat) : Char :=
  if n < 10 then Char.ofNat (48 + n) else Char.ofNat (87 + (n - 10))

/-- Four hexadecimal digits, for `\uXXXX` escapes. -/
def hex4 (n : Nat) : String :=
  String.mk [hexDigit (n / 4096 % 16), hexDigit (n / 256 % 16),
             hexDigit (n / 16 % 16), hexDigit (n % 16)]

/-- `JSON.stringify` escaping of a single character. -/
def jEscapeChar (c : Char) : String :=
  if c = '"' then "\\\""
  else if c = '\\' then "\\\\"
  else if c = '\n' then "\\n"
  else if c = '\r' then "\\r"
  else if c = '\t' then "\\t"
  else if c = Char.ofNat 8 then "\\b"
  else if c = Char.ofNat 12 then "\\f"
  else if c.toNat < 32 then "\\u" ++ hex4 c.toNat
  else String.singleton c

/-- `JSON.stringify` rendering of a string: quoted and escaped. -/
def jEscape (s : String) : String :=
  "\"" ++ String.join (s.toList.map jEscapeChar) ++ "\""

mutual

/-- `JSON.stringify(v, null, 2)` at current indentation `ind`: the exact text
Node produces with a two-space gap. An empty array or object prints as `[]` /
`{}`; otherwise entries sit on their own lines, indented two further spaces. -/
def jsonStr (ind : String) : JVal → String
  | .jnull => "null"
  | .jbool true => "true"
  | .jbool false => "false"
  | .jnum n => toString n
  | .jstr s => jEscape s
  | .jarr [] => "[]"
  | .jarr (x :: xs) =>
      "[\n" ++ ind ++ "  " ++ jsonStr (ind ++ "  ") x ++
        jsonStrList (ind ++ "  ") xs ++ "\n" ++ ind ++ "]"
  | .jobj [] => "\x7b\x7d"
  | .jobj ((k, v) :: fs) =>
      "\x7b\n" ++ ind ++ "  " ++ jEscape k ++ ": " ++ jsonStr (ind ++ "  ") v ++
        jsonStrFields (ind ++ "  ") fs ++ "\n" ++ ind ++ "\x7d"

/-- Remaining array elements: `,\n<ind><elem>` each. -/
def jsonStrList (ind : String) : List JVal → String
  | [] => ""
  | x :: xs => ",\n" ++ ind ++ jsonStr ind x ++ jsonStrList ind xs

/-- Remaining object fields: `,\n<ind>"key": <value>` each. -/
def jsonStrFields (ind : String) : List (String × JVal) → String
  | [] => ""
  | (k, v) :: fs => ",\n" ++ ind ++ jEscape k ++ ": " ++ jsonStr ind v ++ jsonStrFields ind fs

end

/-- `JSON.stringify(v, null, 2)` as the bridge calls it. -/
def pretty (v : JVal) : String := jsonStr "" v

instance {ε α : Type} [DecidableEq ε] [DecidableEq α] : DecidableEq (Except ε α) := fun a b =>
  match a, b with
  | .ok x, .ok y =>
      if h : x = y then .isTrue (by rw [h]) else .isFalse (by simp [h])
  | .error x, .error y =>
      if h : x = y then .isTrue (by rw [h]) else .isFalse (by simp [h])
  | .ok _, .error _ => .isFalse (by simp)
  | .error _, .ok _ => .isFalse (by simp)

/-! ## Response normalizer (`CallToolRequestSchema` handler, lines 198-262) -/

/-- One unit of a tool-call result: `content.push({type:'text'|'image', ...})`.
The `data` field of an image block carries `response.image` verbatim, whatever
value that is. -/
inductive ContentBlock where
  | text (s : String)
  | image (data : JVal) (mimeType : String)
deriving DecidableEq

/-- `text += (text ? '\n' : '') + piece`. -/
def jsAppendPiece (t piece : String) : String :=
  t ++ (if t = "" then "" else "\n") ++ piece

/-- One entry of `response.actors.map(a => `  - ${typeof a === 'string' ? a : a.name}`)`.
A string renders itself; property access `.name` on `null` throws a
`TypeError`; on an object it yields the `name` field (or `undefined`, rendered
as the string `"undefined"`); on any other value it is `undefined` as well. -/
def renderActor : JVal → Except String String
  | .jstr s => .ok ("  - " ++ s)
  | .jnull => .error "Cannot read properties of null (reading 'name')"
  | .jobj fs => .ok ("  - " ++ jsToStringU (jget fs "name"))
  | _ => .ok ("  - " ++ "undefined")

/-- `renderActor` mapped over a list, propagating the first throw. -/
def renderActors : List JVal → Except String (List String)
  | [] => .ok []
  | a :: rest => do
      let s ← renderActor a
      let tail ← renderActors rest
      .ok (s :: tail)

/-- `response.actors.map(...).join('\n')`: calling `.map` on a truthy
non-array throws a `TypeError`. -/
def actorsText : JVal → Except String String
  | .jarr xs => (renderActors xs).map (String.intercalate "\n")
  | _ => .error "response.actors.map is not a function"

/-- Lines 221-223: if `response.actors` is truthy, concatenate the rendered
actor list onto the text built so far (throwing where the code throws);
otherwise leave the text unchanged. -/
def actorsStep (fs : List (String × JVal)) (t : String) : Except String String :=
  if truthy (jget fs "actors") then
    match actorsText ((jget fs "actors").getD .jnull) with
    | .ok astr => .ok (jsAppendPiece t ("Actors:\n" ++ astr))
    | .error e => .error e
  else .ok t

/-- Line 229: `image/${response.format || 'png'}`. -/
def mimeOf (fs : List (String × JVal)) : String :=
  "image/" ++ (if truthy (jget fs "format") then jsToStringU (jget fs "format") else "png")

/-- Lines 206-253 for an object response: the three-way branch on
`response.success !== undefined` / truthiness of `response.success`,
the text accumulation, the image block (pushed BEFORE the text block),
and the raw/fallback serializations. -/
def normalizeFields (fs : List (String × JVal)) : Except String (List ContentBlock) :=
  if (jget fs "success").isSome then
    if truthy (jget fs "success") then
      let t0 := if truthy (jget fs "output") then jsToStringU (jget fs "output") else ""
      let t1 := if truthy (jget fs "result") then
          jsAppendPiece t0 ("Result: " ++ pretty ((jget fs "result").getD .jnull))
        else t0
      match actorsStep fs t1 with
      | .error e => .error e
      | .ok t2 =>
        let imgs : List ContentBlock :=
          if truthy (jget fs "image") then
            [.image ((jget fs "image").getD .jnull) (mimeOf fs)]
          else []
        let t3 := if t2 = "" ∧ truthy (jget fs "image") = false then pretty (.jobj fs) else t2
        .ok (imgs ++ (if t3 = "" then [] else [.text t3]))
    else
      .ok [.text ("Error: " ++
        (if truthy (jget fs "error") then jsToStringU (jget fs "error") else "Unknown error"))]
  else
    .ok [.text (pretty (.jobj fs))]

/-- The whole normalization of a parsed response value. A `null` response
throws at `response.success`; a primitive or array response has
`success === undefined` and takes the raw branch. -/
def normalize : JVal → Except String (List ContentBlock)
  | .jnull => .error "Cannot read properties of null (reading 'success')"
  | .jobj fs => normalizeFields fs
  | v => .ok [.text (pretty v)]

/-- The full `CallToolRequestSchema` handler result for tool `name`, given the
outcome of `sendMessage`: a rejected dispatch or a throw inside normalization
is caught at lines 256-261 and rendered as
`Failed to call tool ${name}: ${error.message}` with `isError: true`. -/
structure CallResult where
  content : List ContentBlock
  isError : Bool
deriving DecidableEq

def callTool (name : String) (resp : Except String JVal) : CallResult :=
  match resp with
  | .error e => ⟨[.text ("Failed to call tool " ++ name ++ ": " ++ e)], true⟩
  | .ok v =>
      match normalize v with
      | .ok blocks => ⟨blocks, false⟩
      | .error e => ⟨[.text ("Failed to call tool " ++ name ++ ": " ++ e)], true⟩

/-! ## Schema translator (`ListToolsRequestSchema` handler, lines 134-195) -/

/-- JavaScript property access `v[k]` as an expression that can throw:
on `null` it raises a `TypeError`; on a primitive or an array it is
`undefined` for every key the bridge reads. -/
def jpropE (v : JVal) (k : String) : Except String (Option JVal) :=
  match v with
  | .jnull => .error ("Cannot read properties of null (reading '" ++ k ++ "')")
  | .jobj fs => .ok (jget fs k)
  | _ => .ok none

/-- `Object.entries(v)`: an object's fields in order; an array's elements
under their decimal indices; a string's characters under theirs; primitives
have no enumerable own properties. -/
def jentries : JVal → List (String × JVal)
  | .jobj fs => fs
  | .jarr xs => (List.range xs.length).zip xs |>.map (fun p => (toString p.1, p.2))
  | .jstr s => (List.range s.length).zip (s.toList.map (fun c => JVal.jstr (String.singleton c)))
      |>.map (fun p => (toString p.1, p.2))
  | _ => []

/-- Line 146: `value.type === 'integer' ? 'number' : value.type || 'string'`
over the (possibly undefined) declared `type`. -/
def mapParamType (t : Option JVal) : JVal :=
  if t = some (.jstr "integer") then .jstr "number"
  else if truthy t then t.getD .jnull
  else .jstr "string"

/-- Lines 145-148: one derived property,
`{ type: value.type === 'integer' ? 'number' : value.type || 'string',
   description: value.description || '' }`. -/
def toProp (v : JVal) : Except String JVal := do
  let t ← jpropE v "type"
  let d ← jpropE v "description"
  let dv : JVal := if truthy d then d.getD .jnull else .jstr ""
  .ok (.jobj [("type", mapParamType t), ("description", dv)])

/-- The `properties` reduce over `Object.entries(func.parameters || {})`. -/
def propsOf : List (String × JVal) → Except String (List (String × JVal))
  | [] => .ok []
  | (k, v) :: rest => do
      let p ← toProp v
      let tail ← propsOf rest
      .ok ((k, p) :: tail)

/-- Lines 151-153: keys of entries whose value has a truthy `required`
field, in catalog order. -/
def requiredKeys : List (String × JVal) → Except String (List String)
  | [] => .ok []
  | (k, v) :: rest => do
      let rq ← jpropE v "required"
      let tail ← requiredKeys rest
      .ok (if truthy rq then k :: tail else tail)

/-- One tool schema as built by the handler. `name` carries `func.name`
verbatim (possibly `undefined`); the input schema's `type` field is the
literal `'object'` in every branch; `required` is absent on the first two
fallback tools and present everywhere else. -/
structure ToolSchema where
  name : Option JVal
  description : JVal
  schemaType : String
  properties : List (String × JVal)
  required : Option (List String)
deriving DecidableEq

/-- Lines 139-155: one catalog entry mapped to a tool schema. -/
def toTool (f : JVal) : Except String ToolSchema := do
  let nm ← jpropE f "name"
  let ds ← jpropE f "description"
  let ps ← jpropE f "parameters"
  let params : JVal := if truthy ps then ps.getD .jnull else .jobj []
  let entries := jentries params
  let props ← propsOf entries
  let req ← requiredKeys entries
  .ok { name := nm
        description :=
          if truthy ds then ds.getD .jnull
          else .jstr ("KarianaUMCP tool: " ++ jsToStringU nm)
        schemaType := "object"
        properties := props
        required := some req }

def mapToTools : List JVal → Except String (List ToolSchema)
  | [] => .ok []
  | f :: rest => do
      let t ← toTool f
      let tail ← mapToTools rest
      .ok (t :: tail)

/-- Lines 160-190: the static catalog returned when the reply does not carry
`success && functions`. -/
def fallbackTools : List ToolSchema :=
  [ { name := some (.jstr "ping")
      description := .jstr "Test KarianaUMCP connection"
      schemaType := "object", properties := [], required := none },
    { name := some (.jstr "list_actors")
      description := .jstr "List all actors in the Unreal level"
      schemaType := "object"
      properties := [("class_filter",
        .jobj [("type", .jstr "string"), ("description", .jstr "Filter by actor class")])]
      required := none },
    { name := some (.jstr "execute_python")
      description := .jstr "Execute Python code in Unreal Engine"
      schemaType := "object"
      properties := [("code",
        .jobj [("type", .jstr "string"), ("description", .jstr "Python code to execute")])]
      required := some ["code"] } ]

/-- The body of the `try` block: await the dispatch (a rejection re-throws),
then either map the catalog or return the fallback set. Calling `.map` on a
truthy non-array `functions` throws. -/
def listToolsCore (resp : Except String JVal) : Except String (List ToolSchema) := do
  let r ← resp
  let s ← jpropE r "success"
  if truthy s then
    let fns ← jpropE r "functions"
    if truthy fns then
      match fns.getD .jnull with
      | .jarr fs => mapToTools fs
      | _ => .error "response.functions.map is not a function"
    else .ok fallbackTools
  else .ok fallbackTools

/-- The whole `ListToolsRequestSchema` handler: any throw is caught at
lines 191-194 and turned into `{ tools: [] }`. -/
def listTools (resp : Except String JVal) : List ToolSchema :=
  match listToolsCore resp with
  | .ok ts => ts
  | .error _ => []

/-! ## Dispatcher (`sendMessage`, lines 119-131) and HTTP transport -/

/-- Lines 102-114 (`sendToHttp`): a non-2xx status throws
`HTTP error: <status>`; otherwise the parsed body is returned. -/
def sendToHttp (status : Nat) (body : Except String JVal) : Except String JVal :=
  if status < 200 ∨ 300 ≤ status then .error ("HTTP error: " ++ toString status)
  else body

/-- Lines 119-131: try the socket first; only on its failure run the HTTP
attempt (modelled as a thunk, so that a successful socket attempt provably
never consults it); if both fail, throw the composite message
`Connection failed: Socket(<socket reason>), HTTP(<http reason>)`. -/
def sendMessage (sock : Except String JVal) (http : Unit → Except String JVal) :
    Except String JVal :=
  match sock with
  | .ok v => .ok v
  | .error se =>
      match http () with
      | .ok v => .ok v
      | .error he =>
          .error ("Connection failed: Socket(" ++ se ++ "), HTTP(" ++ he ++ ")")

/-! ## Socket transport event behaviour (`sendToSocket`, lines 52-97) -/

/-- The observable state of one `sendToSocket` call: the accumulated
`responseData` buffer and the promise's settlement. A promise settles at most
once; `settled = none` is a still-pending call. -/
structure SockState where
  buf : String
  settled : Option (Except String JVal)
deriving DecidableEq

/-- The events the handler reacts to. -/
inductive SockEvent where
  | data (chunk : String)
  | timeout
  | socketError (msg : String)
  | close

/-- `resolve`/`reject`: a no-op on an already-settled promise. -/
def settle (s : SockState) (r : Except String JVal) : SockState :=
  match s.settled with
  | some _ => s
  | none => { s with settled := some r }

/-- One event step of the `sendToSocket` handlers, parameterized by the host
runtime's `JSON.parse` (`parse str = none` models a parse throw):
`data` appends the chunk and resolves on the first successful parse of the
trimmed buffer; `timeout` rejects with `Socket timeout`; `error` rejects with
the error's message; `close` makes a final parse attempt — but only when the
buffer is non-empty (`if (responseData)`), resolving on success and rejecting
`Invalid JSON response` on failure. -/
def sockStep (parse : String → Option JVal) (s : SockState) : SockEvent → SockState
  | .data chunk =>
      let b := s.buf ++ chunk
      match parse b.trim with
      | some v => settle { s with buf := b } (.ok v)
      | none => { s with buf := b }
  | .timeout => settle s (.error "Socket timeout")
  | .socketError m => settle s (.error m)
  | .close =>
      if s.buf = "" then s
      else
        match parse s.buf.trim with
        | some v => settle s (.ok v)
        | none => settle s (.error "Invalid JSON response")

/-! ## Outbound message construction (line 202) -/

/-- `const message = { type: name, ...args };` — the spread assigns each
argument key in order; a key named `type` among the arguments overwrites the
tool name while keeping the first position, exactly as JavaScript object
spread does. -/
def buildMessage (name : String) (args : List (String × JVal)) : List (String × JVal) :=
  ("type", (jget args "type").getD (.jstr name)) :: args.filter (fun kv => kv.1 ≠ "type")

/-- Discriminates the two block kinds, for stating ordering properties. -/
def isImageBlock : ContentBlock → Bool
  | .image _ _ => true
  | .text _ => false

/-- The `actors` field shapes on which the success branch provably does not
throw: whenever the field is truthy it is an array with no `null` entries
(`null` entries throw at `a.name`, truthy non-arrays throw at `.map`). -/
def ActorsWellFormed (a : Option JVal) : Prop :=
  truthy a = true → ∃ xs, a = some (.jarr xs) ∧ JVal.jnull ∉ xs

end Kariana

namespace Kariana

/-! ## General-purpose lemmas -/

theorem pretty_example : pretty (.jobj [("x", .jnum 1)]) = "\x7b\n  \"x\": 1\n\x7d" := by
  decide

theorem append_ne_empty_left (a b : String) (h : a ≠ "") : a ++ b ≠ "" := by
  intro hc
  apply h
  rw [String.ext_iff] at hc ⊢
  simpa using (List.append_eq_nil.mp (by simpa using hc)).1

theorem jsonStr_jobj_ne_empty (ind : String) (fs : List (String × JVal)) :
    jsonStr ind (.jobj fs) ≠ "" := by
  match fs with
  | [] => show "\x7b\x7d" ≠ ""; decide
  | (k, v) :: fs =>
      show "\x7b\n" ++ ind ++ "  " ++ jEscape k ++ ": " ++ jsonStr (ind ++ "  ") v ++
        jsonStrFields (ind ++ "  ") fs ++ "\n" ++ ind ++ "\x7d" ≠ ""
      apply append_ne_empty_left
      apply append_ne_empty_left
      apply append_ne_empty_left
      apply append_ne_empty_left
      apply append_ne_empty_left
      apply append_ne_empty_left
      apply append_ne_empty_left
      apply append_ne_empty_left
      exact append_ne_empty_left "\x7b\n" ind (by decide)

/-! ## C3: dispatcher ordering and composite failure -/

/-- C3: the dispatcher resolves with the socket transport's value whenever the
socket attempt succeeds, without consulting the HTTP transport at all; when the
socket attempt fails, the outcome is decided by the HTTP attempt, and when that
fails too the dispatch rejects with one composite message embedding both
underlying failure messages; in particular a socket failure `refused` together
with an HTTP status-500 failure rejects with
`Connection failed: Socket(refused), HTTP(HTTP error: 500)`. -/
theorem c3_socket_first_composite_failure :
    (∀ (v : JVal) (http : Unit → Except String JVal), sendMessage (.ok v) http = .ok v)
  ∧ (∀ se he : String, ∃ p q r0 : String,
        sendMessage (.error se) (fun _ => .error he) = .error (p ++ se ++ q ++ he ++ r0))
  ∧ sendMessage (.error "refused") (fun _ => sendToHttp 500 (.ok (.jobj []))) =
      .error "Connection failed: Socket(refused), HTTP(HTTP error: 500)" := by
  refine ⟨fun v http => rfl, fun se he => ⟨"Connection failed: Socket(", "), HTTP(", ")", ?_⟩, ?_⟩
  · rfl
  · decide

/-! ## C4: final parse attempt on close -/

/-- C4 counterexample: when the remote end closes the connection with zero
accumulated bytes, the close handler's `if (responseData)` guard skips the
final parse attempt entirely and the call remains unresolved, contradicting
the claim that a parse attempt happens "including the case of zero bytes" and
failure is reported as a malformed-response condition. -/
theorem c4_counterexample :
    (sockStep (fun _ => none) { buf := "", settled := none } .close).settled = none := rfl

/-- C4 (amended): when the remote end closes the connection before any
successful parse and the accumulated buffer is NON-EMPTY, a final parse
attempt is made on the trimmed buffer, and if it fails the call rejects with
the malformed-response condition `Invalid JSON response`; with zero
accumulated bytes the close handler does nothing and the call stays pending. -/
theorem c4_close_rejects_malformed (parse : String → Option JVal) (s : SockState)
    (h1 : s.settled = none) (h2 : s.buf ≠ "") (h3 : parse s.buf.trim = none) :
    sockStep parse s .close = { buf := s.buf, settled := some (.error "Invalid JSON response") } := by
  simp [sockStep, h2, h3, settle, h1]

theorem c4_close_rejects_malformed_witness :
    sockStep (fun _ => none) { buf := "not json", settled := none } .close =
      { buf := "not json", settled := some (.error "Invalid JSON response") } :=
  c4_close_rejects_malformed (fun _ => none) { buf := "not json", settled := none }
    rfl (by decide) rfl

/-! ## C5: timeout/close race -/

/-- C5: once the timeout has rejected a pending socket call, a later close
event — even one whose buffer parses as valid JSON — cannot change the
outcome: the settlement stays the timeout failure. More generally, no event
whatsoever can alter an already-settled call, so the promise settles exactly
once. -/
theorem c5_timeout_wins_over_close :
    (∀ (parse : String → Option JVal) (s : SockState) (v : JVal),
        s.settled = none → parse s.buf.trim = some v →
        (sockStep parse (sockStep parse s .timeout) .close).settled =
          some (.error "Socket timeout"))
  ∧ (∀ (parse : String → Option JVal) (s : SockState) (e : SockEvent)
        (r : Except String JVal), s.settled = some r → (sockStep parse s e).settled = some r) := by
  constructor
  · intro parse s v h1 h2
    have ht : sockStep parse s .timeout =
        { buf := s.buf, settled := some (.error "Socket timeout") } := by
      simp [sockStep, settle, h1]
    rw [ht]
    by_cases hb : s.buf = ""
    · simp [sockStep, hb]
    · simp [sockStep, hb, h2, settle]
  · intro parse s e r h
    cases e with
    | data c =>
        cases hp : parse ((s.buf ++ c).trim) with
        | some v => simp [sockStep, hp, settle, h]
        | none => simp [sockStep, hp, h]
    | timeout => simp [sockStep, settle, h]
    | socketError m => simp [sockStep, settle, h]
    | close =>
        by_cases hb : s.buf = ""
        · simp [sockStep, hb, h]
        · cases hp : parse s.buf.trim with
          | some v => simp [sockStep, hb, hp, settle, h]
          | none => simp [sockStep, hb, hp, settle, h]

theorem c5_timeout_wins_over_close_witness :
    (sockStep (fun _ => some (.jobj []))
      (sockStep (fun _ => some (.jobj [])) { buf := "\x7b\x7d", settled := none } .timeout)
      .close).settled = some (.error "Socket timeout") :=
  c5_timeout_wins_over_close.1 (fun _ => some (.jobj []))
    { buf := "\x7b\x7d", settled := none } (.jobj []) rfl rfl

/-! ## C9: arguments named `type` override the tool name -/

/-- C9: in `{ type: name, ...args }`, an argument key named `type` overrides
the tool name in the flattened outbound message (the spread assigns it after
the initial `type: name`), while in the absence of such an argument the field
holds the tool name; concretely, calling tool `ping` with argument
`type: "execute_python"` sends `{"type": "execute_python"}`. -/
theorem c9_argument_type_overrides_tool_name :
    (∀ (n : String) (args : List (String × JVal)) (v : JVal),
        jget args "type" = some v → jget (buildMessage n args) "type" = some v)
  ∧ (∀ (n : String) (args : List (String × JVal)),
        jget args "type" = none → jget (buildMessage n args) "type" = some (.jstr n))
  ∧ buildMessage "ping" [("type", .jstr "execute_python")] =
      [("type", .jstr "execute_python")] := by
  have jget_cons_self : ∀ (k : String) (x : JVal) (rest : List (String × JVal)),
      jget ((k, x) :: rest) k = some x := by
    intro k x rest
    simp [jget, List.find?]
  refine ⟨fun n args v h => ?_, fun n args h => ?_, by decide⟩
  · simp only [buildMessage, jget_cons_self, h, Option.getD]
  · simp only [buildMessage, jget_cons_self, h, Option.getD]

theorem c9_argument_type_overrides_tool_name_witness :
    jget (buildMessage "ping" [("type", .jstr "execute_python")]) "type" =
      some (.jstr "execute_python") :=
  c9_argument_type_overrides_tool_name.1 "ping" [("type", .jstr "execute_python")]
    (.jstr "execute_python") rfl

/-! ## C10: presence is JavaScript truthiness -/

/-- C10: the normalizer tests field presence by truthiness, so a success-true
response whose `result` is any falsy value is handled as if `result` were
absent — in general, and concretely for `result: 0`, `output: ""`,
`image: ""` and `result: false`, each of which falls through to the single
fallback text block carrying the pretty-printed full response. -/
theorem c10_falsy_fields_treated_absent :
    (∀ v : JVal, truthy (some v) = false →
        normalize (.jobj [("success", .jbool true), ("result", v)]) =
          .ok [.text (pretty (.jobj [("success", .jbool true), ("result", v)]))])
  ∧ normalize (.jobj [("success", .jbool true), ("result", .jnum 0)]) =
      .ok [.text "\x7b\n  \"success\": true,\n  \"result\": 0\n\x7d"]
  ∧ normalize (.jobj [("success", .jbool true), ("output", .jstr "")]) =
      .ok [.text "\x7b\n  \"success\": true,\n  \"output\": \"\"\n\x7d"]
  ∧ normalize (.jobj [("success", .jbool true), ("image", .jstr "")]) =
      .ok [.text "\x7b\n  \"success\": true,\n  \"image\": \"\"\n\x7d"]
  ∧ normalize (.jobj [("success", .jbool true), ("result", .jbool false)]) =
      .ok [.text "\x7b\n  \"success\": true,\n  \"result\": false\n\x7d"] := by
  refine ⟨fun v hv => ?_, by decide, by decide, by decide, by decide⟩
  have hss : jget [("success", JVal.jbool true), ("result", v)] "success" =
      some (.jbool true) := rfl
  have hr : jget [("success", JVal.jbool true), ("result", v)] "result" = some v := rfl
  have ho : jget [("success", JVal.jbool true), ("result", v)] "output" = none := rfl
  have ha : jget [("success", JVal.jbool true), ("result", v)] "actors" = none := rfl
  have hi : jget [("success", JVal.jbool true), ("result", v)] "image" = none := rfl
  simp [normalize, normalizeFields, actorsStep, hss, hr, ho, ha, hi, hv,
    show truthy (some (JVal.jbool true)) = true from rfl,
    show truthy (none : Option JVal) = false from rfl, pretty]
  exact jsonStr_jobj_ne_empty "" [("success", .jbool true), ("result", v)]

theorem c10_falsy_fields_treated_absent_witness :
    normalize (.jobj [("success", .jbool true), ("result", .jnum 0)]) =
      .ok [.text (pretty (.jobj [("success", .jbool true), ("result", .jnum 0)]))] :=
  c10_falsy_fields_treated_absent.1 (.jnum 0) rfl

/-! ## C1: normalizer block ordering -/

/-- C1 counterexample: at the input
`{success:true, output:"A", result:{x:1}, image:"b64", format:"jpeg"}` the
normalizer pushes the image block FIRST and the text block second, and the
result text is `JSON.stringify`'s two-space-indented rendering, so the output
is not the claimed `[Text("A\nResult: \x7b\"x\":1\x7d"), Image(...)]`. -/
theorem c1_counterexample :
    normalize (.jobj [("success", .jbool true), ("output", .jstr "A"),
      ("result", .jobj [("x", .jnum 1)]), ("image", .jstr "b64"), ("format", .jstr "jpeg")]) =
      .ok [.image (.jstr "b64") "image/jpeg", .text "A\nResult: \x7b\n  \"x\": 1\n\x7d"]
  ∧ normalize (.jobj [("success", .jbool true), ("output", .jstr "A"),
      ("result", .jobj [("x", .jnum 1)]), ("image", .jstr "b64"), ("format", .jstr "jpeg")]) ≠
      .ok [.text "A\nResult: \x7b\"x\":1\x7d", .image (.jstr "b64") "image/jpeg"] :=
  ⟨by decide, by decide⟩

/-- C1 (amended): for every success-true RemoteResponse the normalizer emits
the image block (if any) BEFORE the text block (if any) — every image block in
the output precedes every text block — and the single text block newline-joins
output, `"Result: "` plus the two-space-indented pretty-printed result, and
the actor list; in particular the input
`{success:true, output:"A", result:{x:1}, image:"b64", format:"jpeg"}` yields
exactly `[Image("b64", "image/jpeg"), Text("A\nResult: \x7b\n  \"x\": 1\n\x7d")]`. -/
theorem c1_image_block_precedes_text :
    (∀ (fs : List (String × JVal)) (bs : List ContentBlock),
        truthy (jget fs "success") = true → normalizeFields fs = .ok bs →
        bs = bs.filter isImageBlock ++ bs.filter (fun b => !isImageBlock b))
  ∧ normalize (.jobj [("success", .jbool true), ("output", .jstr "A"),
      ("result", .jobj [("x", .jnum 1)]), ("image", .jstr "b64"), ("format", .jstr "jpeg")]) =
      .ok [.image (.jstr "b64") "image/jpeg", .text "A\nResult: \x7b\n  \"x\": 1\n\x7d"] := by
  refine ⟨fun fs bs h1 h2 => ?_, by decide⟩
  have hsome : (jget fs "success").isSome = true := by
    cases hj : jget fs "success" with
    | none => rw [hj] at h1; simp [truthy] at h1
    | some w => simp
  simp only [normalizeFields, hsome, h1, if_true] at h2
  split at h2
  · exact absurd h2 (by simp)
  · rename_i t2 heq
    rw [Except.ok.injEq] at h2
    subst h2
    by_cases himg : truthy (jget fs "image") = true
    · by_cases ht : t2 = ""
      · simp [himg, ht, isImageBlock]
      · simp [himg, ht, isImageBlock]
    · have himg2 : truthy (jget fs "image") = false := by
        cases hx : truthy (jget fs "image")
        · rfl
        · exact absurd hx himg
      by_cases ht : t2 = ""
      · simp only [himg2, ht, Bool.false_eq_true, if_false, and_true, if_true, List.nil_append]
        have hne : ¬(pretty (.jobj fs) = "") := jsonStr_jobj_ne_empty "" fs
        simp [hne, isImageBlock]
      · simp [himg2, ht, isImageBlock]

theorem c1_image_block_precedes_text_witness :
    ([.image (.jstr "b64") "image/jpeg", .text "A\nResult: \x7b\n  \"x\": 1\n\x7d"] :
        List ContentBlock) =
      List.filter isImageBlock
          [.image (.jstr "b64") "image/jpeg", .text "A\nResult: \x7b\n  \"x\": 1\n\x7d"] ++
        List.filter (fun b => !isImageBlock b)
          [.image (.jstr "b64") "image/jpeg", .text "A\nResult: \x7b\n  \"x\": 1\n\x7d"] :=
  c1_image_block_precedes_text.1
    [("success", .jbool true), ("output", .jstr "A"), ("result", .jobj [("x", .jnum 1)]),
     ("image", .jstr "b64"), ("format", .jstr "jpeg")]
    [.image (.jstr "b64") "image/jpeg", .text "A\nResult: \x7b\n  \"x\": 1\n\x7d"]
    rfl (by decide)

/-! ## C2: tools-list fallback catalog -/

/-- C2 counterexample: when every transport attempt fails (the dispatch
rejects), the handler's catch block returns an EMPTY tool list, not the
fallback catalog — the claimed "never an empty tool list" fails on the
cannot-fetch path. -/
theorem c2_counterexample :
    listTools (.error "Connection failed: Socket(refused), HTTP(HTTP error: 500)") = []
  ∧ ([] : List ToolSchema) ≠ fallbackTools :=
  ⟨rfl, by decide⟩

/-- C2 (amended): when a reply is received whose `success` or `functions`
field is not truthy, the handler substitutes the static fallback catalog
(`ping`, `list_actors`, `execute_python`); but when the catalog cannot be
fetched at all (the dispatch rejects), the catch block returns an empty tool
list instead. -/
theorem c2_fallback_catalog :
    (∀ fs : List (String × JVal),
        ¬(truthy (jget fs "success") = true ∧ truthy (jget fs "functions") = true) →
        listTools (.ok (.jobj fs)) = fallbackTools)
  ∧ (∀ e : String, listTools (.error e) = []) := by
  constructor
  · intro fs h
    by_cases hs : truthy (jget fs "success") = true
    · have hf : truthy (jget fs "functions") = false := by
        cases hx : truthy (jget fs "functions")
        · rfl
        · exact absurd ⟨hs, hx⟩ h
      simp [listTools, listToolsCore, jpropE, hs, hf, bind, Except.bind]
    · have hs2 : truthy (jget fs "success") = false := by
        cases hx : truthy (jget fs "success")
        · rfl
        · exact absurd hx hs
      simp [listTools, listToolsCore, jpropE, hs2, bind, Except.bind]
  · intro e
    rfl

theorem c2_fallback_catalog_witness :
    listTools (.ok (.jobj [("success", .jbool false)])) = fallbackTools :=
  c2_fallback_catalog.1 [("success", .jbool false)] (by decide)

/-! ## C6: error rendering towards the client -/

/-- C6 counterexample: a composite transport failure reaching the client is
rendered as `Failed to call tool <name>: <message>` with `isError: true`,
which is not prefixed `"Error: "`. -/
theorem c6_counterexample :
    callTool "ping" (.error "Connection failed: Socket(refused), HTTP(HTTP error: 500)") =
      { content := [.text
          "Failed to call tool ping: Connection failed: Socket(refused), HTTP(HTTP error: 500)"],
        isError := true }
  ∧ "Error: ".data.isPrefixOf
      "Failed to call tool ping: Connection failed: Socket(refused), HTTP(HTTP error: 500)".data
      = false :=
  ⟨by decide, by decide⟩

/-- C6 (amended): a tool-execution-level error (a reply with `success`
present and falsy) is delivered as one Text block prefixed exactly
`"Error: "` (and `isError` unset); a transport failure (the dispatch
rejecting) is instead delivered as one Text block
`Failed to call tool <name>: <message>` with `isError: true`. -/
theorem c6_error_rendering :
    (∀ (n : String) (fs : List (String × JVal)),
        (jget fs "success").isSome = true → truthy (jget fs "success") = false →
        ∃ m : String, callTool n (.ok (.jobj fs)) =
          { content := [.text ("Error: " ++ m)], isError := false })
  ∧ (∀ n e : String, callTool n (.error e) =
        { content := [.text ("Failed to call tool " ++ n ++ ": " ++ e)], isError := true }) := by
  constructor
  · intro n fs h1 h2
    refine ⟨if truthy (jget fs "error") then jsToStringU (jget fs "error")
            else "Unknown error", ?_⟩
    simp [callTool, normalize, normalizeFields, h1, h2]
  · intro n e
    rfl

theorem c6_error_rendering_witness :
    ∃ m : String,
      callTool "t" (.ok (.jobj [("success", .jbool false), ("error", .jstr "Actor not found")])) =
        { content := [.text ("Error: " ++ m)], isError := false } :=
  c6_error_rendering.1 "t" [("success", .jbool false), ("error", .jstr "Actor not found")]
    rfl rfl

/-! ## C7: parameter type mapping -/

/-- C7 counterexample: a catalog `ParameterSpec` whose declared type is the
empty string is mapped to `"string"` by the `value.type || 'string'`
truthiness default, not passed through unchanged. -/
theorem c7_counterexample :
    listTools (.ok (.jobj [("success", .jbool true),
      ("functions", .jarr [.jobj [("name", .jstr "f"),
        ("parameters", .jobj [("p", .jobj [("type", .jstr "")])])]])])) =
      [{ name := some (.jstr "f"), description := .jstr "KarianaUMCP tool: f",
         schemaType := "object",
         properties := [("p", .jobj [("type", .jstr "string"), ("description", .jstr "")])],
         required := some [] }]
  ∧ JVal.jstr "string" ≠ .jstr "" :=
  ⟨by decide, by decide⟩

/-- C7 (amended): the translator maps declared type `"integer"` to
`"number"`, passes every other NON-EMPTY declared type string through
unchanged, and defaults an absent — or empty, by truthiness — type to
`"string"`; `toProp` installs exactly this mapping in the derived property. -/
theorem c7_type_mapping :
    mapParamType (some (.jstr "integer")) = .jstr "number"
  ∧ (∀ s : String, s ≠ "integer" → s ≠ "" → mapParamType (some (.jstr s)) = .jstr s)
  ∧ mapParamType none = .jstr "string"
  ∧ mapParamType (some (.jstr "")) = .jstr "string"
  ∧ (∀ v d : JVal, toProp (.jobj [("type", v), ("description", d)]) =
      .ok (.jobj [("type", mapParamType (some v)),
                  ("description", if truthy (some d) then d else .jstr "")])) := by
  refine ⟨by decide, fun s h1 h2 => ?_, by decide, by decide, fun v d => ?_⟩
  · simp [mapParamType, truthy, h1, h2]
  · have hv : jget [("type", v), ("description", d)] "type" = some v := rfl
    have hd : jget [("type", v), ("description", d)] "description" = some d := rfl
    simp [toProp, jpropE, hv, hd, bind, Except.bind]

theorem c7_type_mapping_witness :
    mapParamType (some (.jstr "boolean")) = .jstr "boolean" :=
  c7_type_mapping.2.1 "boolean" (by decide) (by decide)

/-! ## C8: normalizer totality -/

theorem renderActors_ok (xs : List JVal) (h : JVal.jnull ∉ xs) :
    ∃ ss, renderActors xs = .ok ss := by
  induction xs with
  | nil => exact ⟨[], rfl⟩
  | cons x xs ih =>
      have hx : x ≠ .jnull := fun hx => h (hx ▸ List.mem_cons_self x xs)
      obtain ⟨ss, hss⟩ := ih (fun hm => h (List.mem_cons_of_mem _ hm))
      have hone : ∃ s, renderActor x = .ok s := by
        cases x with
        | jnull => exact absurd rfl hx
        | jbool b => exact ⟨_, rfl⟩
        | jnum n => exact ⟨_, rfl⟩
        | jstr s => exact ⟨_, rfl⟩
        | jarr l => exact ⟨_, rfl⟩
        | jobj fs => exact ⟨_, rfl⟩
      obtain ⟨s, hs⟩ := hone
      exact ⟨s :: ss, by simp [renderActors, hs, hss, bind, Except.bind]⟩

/-- C8 counterexample: a success-true response whose `actors` field is the
truthy non-array `5` makes normalization throw (`.map` is not a function), so
normalization is not total over arbitrary RemoteResponse values. -/
theorem c8_counterexample :
    normalize (.jobj [("success", .jbool true), ("actors", .jnum 5)]) =
      .error "response.actors.map is not a function" := by
  decide

/-- C8 (amended): for every RemoteResponse object whose `actors` field, when
truthy, is an array with no `null` entries, normalization never throws and
returns a non-empty sequence of content blocks (a truthy non-array `actors`
throws at `.map`, and a `null` array entry throws at `.name`). -/
theorem c8_normalize_total (fs : List (String × JVal))
    (h : ActorsWellFormed (jget fs "actors")) :
    ∃ bs, normalize (.jobj fs) = .ok bs ∧ bs ≠ [] := by
  show ∃ bs, normalizeFields fs = .ok bs ∧ bs ≠ []
  cases hb : (jget fs "success").isSome with
  | false =>
      refine ⟨[.text (pretty (.jobj fs))], ?_, by simp⟩
      simp [normalizeFields, hb]
  | true =>
      cases hs : truthy (jget fs "success") with
      | false =>
          refine ⟨[.text ("Error: " ++ (if truthy (jget fs "error") then
            jsToStringU (jget fs "error") else "Unknown error"))], ?_, by simp⟩
          simp [normalizeFields, hb, hs]
      | true =>
          have hstep : ∃ t2, actorsStep fs
              (if truthy (jget fs "result") then
                jsAppendPiece
                  (if truthy (jget fs "output") then jsToStringU (jget fs "output") else "")
                  ("Result: " ++ pretty ((jget fs "result").getD .jnull))
              else if truthy (jget fs "output") then jsToStringU (jget fs "output") else "") =
              .ok t2 := by
            cases ha : truthy (jget fs "actors") with
            | false =>
                have hid : ∀ t, actorsStep fs t = .ok t := fun t => by
                  simp [actorsStep, ha]
                exact ⟨_, hid _⟩
            | true =>
                obtain ⟨xs, hxs, hnull⟩ := h ha
                obtain ⟨ss, hss⟩ := renderActors_ok xs hnull
                have hstep1 : ∀ t, actorsStep fs t =
                    .ok (jsAppendPiece t ("Actors:\n" ++ String.intercalate "\n" ss)) :=
                  fun t => by
                    simp [actorsStep, ha, hxs, actorsText, hss, Except.map,
                      show ∀ ys : List JVal, truthy (some (JVal.jarr ys)) = true
                        from fun ys => rfl]
                exact ⟨_, hstep1 _⟩
          obtain ⟨t2, ht2⟩ := hstep
          cases himg : truthy (jget fs "image") with
          | true =>
              refine ⟨.image ((jget fs "image").getD .jnull) (mimeOf fs) ::
                (if t2 = "" then [] else [.text t2]), ?_, by simp⟩
              simp [normalizeFields, hb, hs, ht2, himg]
          | false =>
              by_cases ht : t2 = ""
              · refine ⟨[.text (pretty (.jobj fs))], ?_, by simp⟩
                have hne : ¬(pretty (.jobj fs) = "") := jsonStr_jobj_ne_empty "" fs
                simp [normalizeFields, hb, hs, ht2, himg, ht, hne]
              · refine ⟨[.text t2], ?_, by simp⟩
                simp [normalizeFields, hb, hs, ht2, himg, ht]

theorem c8_normalize_total_witness :
    ∃ bs, normalize (.jobj [("success", .jbool true), ("actors", .jarr [.jstr "A"])]) =
      .ok bs ∧ bs ≠ [] :=
  c8_normalize_total [("success", .jbool true), ("actors", .jarr [.jstr "A"])]
    (fun _ => ⟨[.jstr "A"], rfl, by decide⟩)

end Kariana
